import Mathlib

/-!
Verification model of the doca_rdma asynchronous RDMA connection and
task-completion engine described by this repository.

The repository ships only header declarations (`doca_rdma.h`,
`doca_gpunetio_dev_rdma.cuh`, ...) whose implementation lives in a
closed-source driver stack; the definitions below are therefore a shallow
embedding modelled from the specification and from the contract stated in the
headers' documentation comments.  Each definition keeps the name of the C
function it embeds where Lean allows it.
-/

namespace Doca

/-- Error codes, after the `doca_error_t` values named in the headers'
return-value documentation. -/
inductive DocaError : Type
  | invalidValue
  | noMemory
  | badState
  | notSupported
  | connectionAborted
  | unexpected
  deriving DecidableEq, Repr

/-- Context lifecycle states of the core context state machine
(Idle → Starting → Running → Stopping → Stopped). -/
inductive CtxState : Type
  | idle
  | starting
  | running
  | stopping
  | stopped
  deriving DecidableEq, Repr

/-- Transport types, after `enum doca_rdma_transport_type`. -/
inductive TransportType : Type
  | rc
  | dc
  deriving DecidableEq, Repr

/-- Opcodes a receive task can report, after `enum doca_rdma_opcode`. -/
inductive RdmaOpcode : Type
  | recvSend
  | recvSendWithImm
  | recvWriteWithImm
  deriving DecidableEq, Repr

/-- Task kinds that have per-kind configuration and pools. -/
inductive TaskKind : Type
  | send
  | sendImm
  | receive
  | read
  | write
  | writeImm
  | atomicCmpSwp
  | atomicFetchAdd
  deriving DecidableEq, Repr

/-- Connection lifecycle states. -/
inductive ConnState : Type
  | requested
  | accepted
  | rejected
  | established
  | disconnecting
  | disconnected
  deriving DecidableEq, Repr

/-- Per-task-kind configuration set by the `*_set_conf` calls: the two
completion callbacks (modelled as opaque identifiers) and the pool size. -/
structure TaskConf : Type where
  successCb : Nat
  errorCb : Nat
  numTasks : Nat
  deriving DecidableEq, Repr

/-- Transport-tunable properties of a doca_rdma context. -/
structure RdmaProps : Type where
  sendQueueSize : Nat
  recvQueueSize : Nat
  transportType : TransportType
  mtu : Nat
  permissions : Nat
  gidIndex : Nat
  sl : Nat
  connectionRequestTimeout : Nat
  maxNumConnections : Nat
  deriving DecidableEq, Repr

/-- Modelled from the spec: the state of one doca_rdma instance (the header
only forward-declares `struct doca_rdma`).  It carries the context lifecycle
state, the tunable properties, the per-kind task configuration and pool
occupancy, the connection table with its monotone id allocator, and the count
of in-flight submitted tasks. -/
structure DocaRdma : Type where
  state : CtxState
  props : RdmaProps
  taskConf : TaskKind → TaskConf
  poolInUse : TaskKind → Nat
  conns : List (Nat × ConnState)
  nextConnId : Nat
  inFlight : Nat

/-- The instance returned by `doca_rdma_create`: Idle, with default
properties, no task configuration, empty pools and no connections. -/
def doca_rdma_create : DocaRdma :=
  { state := CtxState.idle
    props :=
      { sendQueueSize := 0
        recvQueueSize := 0
        transportType := TransportType.rc
        mtu := 0
        permissions := 0
        gidIndex := 0
        sl := 0
        connectionRequestTimeout := 0
        maxNumConnections := 0 }
    taskConf := fun _ => { successCb := 0, errorCb := 0, numTasks := 0 }
    poolInUse := fun _ => 0
    conns := []
    nextConnId := 0
    inFlight := 0 }

/-- Fuel-bounded search for the least exponent `j ≥ k` with `n ≤ 2 ^ j`;
when the fuel runs out the current candidate is returned. -/
def pow2geAux (n : Nat) : Nat → Nat → Nat
  | 0, k => 2 ^ k
  | fuel + 1, k => if n ≤ 2 ^ k then 2 ^ k else pow2geAux n fuel (k + 1)

/-- Least power of two that is `≥ n` (the headers: "Queue size will be
rounded to the next power of 2").  The fuel `n` suffices since `n ≤ 2 ^ n`. -/
def nextPow2 (n : Nat) : Nat := pow2geAux n n 0

/-- Modelled from the spec: the common Idle gate of every property setter —
the headers document `DOCA_ERROR_BAD_STATE - if context is already started`
for each of them, and a failing call does not modify the instance. -/
def setPropIdle (r : DocaRdma) (f : RdmaProps → RdmaProps) : Except DocaError DocaRdma :=
  if r.state = CtxState.idle then Except.ok { r with props := f r.props }
  else Except.error DocaError.badState

/-- Modelled from the spec: `doca_rdma_set_send_queue_size` — Idle-only;
the stored size is the requested size rounded to the next power of 2. -/
def doca_rdma_set_send_queue_size (r : DocaRdma) (v : Nat) : Except DocaError DocaRdma :=
  if v = 0 then Except.error DocaError.invalidValue
  else setPropIdle r (fun p => { p with sendQueueSize := nextPow2 v })

/-- Modelled from the spec: `doca_rdma_get_send_queue_size` — returns the
actual size in use, which may have been increased from the value set. -/
def doca_rdma_get_send_queue_size (r : DocaRdma) : Nat := r.props.sendQueueSize

/-- Modelled from the spec: `doca_rdma_set_recv_queue_size` — Idle-only;
rounded to the next power of 2 like the send queue size. -/
def doca_rdma_set_recv_queue_size (r : DocaRdma) (v : Nat) : Except DocaError DocaRdma :=
  if v = 0 then Except.error DocaError.invalidValue
  else setPropIdle r (fun p => { p with recvQueueSize := nextPow2 v })

/-- Modelled from the spec: `doca_rdma_get_recv_queue_size`. -/
def doca_rdma_get_recv_queue_size (r : DocaRdma) : Nat := r.props.recvQueueSize

/-- Modelled from the spec: `doca_rdma_set_transport_type` — Idle-only. -/
def doca_rdma_set_transport_type (r : DocaRdma) (t : TransportType) : Except DocaError DocaRdma :=
  setPropIdle r (fun p => { p with transportType := t })

/-- Modelled from the spec: `doca_rdma_get_transport_type`. -/
def doca_rdma_get_transport_type (r : DocaRdma) : TransportType := r.props.transportType

/-- Modelled from the spec: `doca_rdma_set_mtu` — Idle-only. -/
def doca_rdma_set_mtu (r : DocaRdma) (m : Nat) : Except DocaError DocaRdma :=
  setPropIdle r (fun p => { p with mtu := m })

/-- Modelled from the spec: `doca_rdma_get_mtu`. -/
def doca_rdma_get_mtu (r : DocaRdma) : Nat := r.props.mtu

/-- Modelled from the spec: `doca_rdma_set_permissions` — Idle-only. -/
def doca_rdma_set_permissions (r : DocaRdma) (perm : Nat) : Except DocaError DocaRdma :=
  setPropIdle r (fun p => { p with permissions := perm })

/-- Modelled from the spec: `doca_rdma_get_permissions`. -/
def doca_rdma_get_permissions (r : DocaRdma) : Nat := r.props.permissions

/-- Modelled from the spec: `doca_rdma_set_gid_index` — Idle-only. -/
def doca_rdma_set_gid_index (r : DocaRdma) (g : Nat) : Except DocaError DocaRdma :=
  setPropIdle r (fun p => { p with gidIndex := g })

/-- Modelled from the spec: `doca_rdma_get_gid_index`. -/
def doca_rdma_get_gid_index (r : DocaRdma) : Nat := r.props.gidIndex

/-- Modelled from the spec: `doca_rdma_set_sl` (service level) — Idle-only. -/
def doca_rdma_set_sl (r : DocaRdma) (s : Nat) : Except DocaError DocaRdma :=
  setPropIdle r (fun p => { p with sl := s })

/-- Modelled from the spec: `doca_rdma_get_sl`. -/
def doca_rdma_get_sl (r : DocaRdma) : Nat := r.props.sl

/-- Modelled from the spec: `doca_rdma_set_connection_request_timeout` —
Idle-only. -/
def doca_rdma_set_connection_request_timeout (r : DocaRdma) (t : Nat) : Except DocaError DocaRdma :=
  setPropIdle r (fun p => { p with connectionRequestTimeout := t })

/-- Modelled from the spec: `doca_rdma_get_connection_request_timeout`. -/
def doca_rdma_get_connection_request_timeout (r : DocaRdma) : Nat :=
  r.props.connectionRequestTimeout

/-- Modelled from the spec: `doca_rdma_set_max_num_connections` — Idle-only. -/
def doca_rdma_set_max_num_connections (r : DocaRdma) (m : Nat) : Except DocaError DocaRdma :=
  setPropIdle r (fun p => { p with maxNumConnections := m })

/-- Modelled from the spec: `doca_rdma_get_max_num_connections`. -/
def doca_rdma_get_max_num_connections (r : DocaRdma) : Nat := r.props.maxNumConnections

/-- Modelled from the spec: the per-kind task configuration calls
(`doca_rdma_task_receive_set_conf`, `doca_rdma_task_atomic_cmp_swp_set_conf`,
... — one textually identical declaration per kind in the header, each
documented with `DOCA_ERROR_BAD_STATE - the RDMA instance is not idle`).
A failing call returns the error and does not modify the instance. -/
def task_set_conf (r : DocaRdma) (k : TaskKind) (c : TaskConf) : Except DocaError DocaRdma :=
  if r.state = CtxState.idle then
    Except.ok { r with taskConf := Function.update r.taskConf k c }
  else Except.error DocaError.badState

/-- Modelled from the spec: `doca_rdma_task_receive_set_conf`. -/
def doca_rdma_task_receive_set_conf (r : DocaRdma) (cb ecb n : Nat) : Except DocaError DocaRdma :=
  task_set_conf r TaskKind.receive { successCb := cb, errorCb := ecb, numTasks := n }

/-- Modelled from the spec: `doca_rdma_task_atomic_cmp_swp_set_conf`. -/
def doca_rdma_task_atomic_cmp_swp_set_conf (r : DocaRdma) (cb ecb n : Nat) :
    Except DocaError DocaRdma :=
  task_set_conf r TaskKind.atomicCmpSwp { successCb := cb, errorCb := ecb, numTasks := n }

/-- Free slots remaining in the task pool of kind `k`: the pool has exactly
`numTasks` slots, fixed by the kind's `set_conf` call. -/
def freeSlots (r : DocaRdma) (k : TaskKind) : Nat := (r.taskConf k).numTasks - r.poolInUse k

/-- Modelled from the spec: the per-kind `*_allocate_init` calls
(`doca_rdma_task_receive_allocate_init`,
`doca_rdma_task_atomic_cmp_swp_allocate_init`, ...).  The pool is
fixed-size: allocation succeeds exactly when a free slot exists and fails
with the resource-exhaustion code `DOCA_ERROR_NO_MEMORY - no more tasks to
allocate` when all `numTasks` slots are in use.  On success the returned
number is the allocated slot's index. -/
def task_allocate_init (r : DocaRdma) (k : TaskKind) : Except DocaError (DocaRdma × Nat) :=
  if r.poolInUse k < (r.taskConf k).numTasks then
    Except.ok ({ r with poolInUse := Function.update r.poolInUse k (r.poolInUse k + 1) },
      r.poolInUse k)
  else Except.error DocaError.noMemory

/-- Modelled from the spec: `doca_rdma_task_receive_allocate_init`. -/
def doca_rdma_task_receive_allocate_init (r : DocaRdma) : Except DocaError (DocaRdma × Nat) :=
  task_allocate_init r TaskKind.receive

/-- Modelled from the spec: `doca_rdma_task_atomic_cmp_swp_allocate_init`. -/
def doca_rdma_task_atomic_cmp_swp_allocate_init (r : DocaRdma) :
    Except DocaError (DocaRdma × Nat) :=
  task_allocate_init r TaskKind.atomicCmpSwp

/-- Modelled from the spec: `doca_task_free` for a task of kind `k` — the
slot returns to its pool. -/
def doca_task_free (r : DocaRdma) (k : TaskKind) : DocaRdma :=
  { r with poolInUse := Function.update r.poolInUse k (r.poolInUse k - 1) }

/-- `n` successive `task_allocate_init` calls of kind `k`, all required to
succeed (the allocated indices are discarded). -/
def allocN (k : TaskKind) : Nat → DocaRdma → Option DocaRdma
  | 0, r => some r
  | n + 1, r =>
    match task_allocate_init r k with
    | Except.ok (r', _) => allocN k n r'
    | Except.error _ => none

/-- `n` successive `doca_task_free` calls of kind `k`. -/
def freeN (k : TaskKind) : Nat → DocaRdma → DocaRdma
  | 0, r => r
  | n + 1, r => freeN k n (doca_task_free r k)

/-- Connection-table lookup by connection id. -/
def lookupConn (r : DocaRdma) (id : Nat) : Option ConnState :=
  (r.conns.find? (fun p => p.1 = id)).map (fun p => p.2)

/-- Modelled from the spec: connection-id allocation (ids are unique per
context and monotonically assigned).  Returns the updated instance and the
new connection's id. -/
def newConnection (r : DocaRdma) : DocaRdma × Nat :=
  ({ r with conns := (r.nextConnId, ConnState.requested) :: r.conns
            nextConnId := r.nextConnId + 1 },
    r.nextConnId)

/-- Well-formedness of the connection table: every assigned id is below the
allocator's next id. -/
def connsWf (r : DocaRdma) : Prop :=
  ∀ p ∈ r.conns, p.1 < r.nextConnId

/-- Modelled from the spec: `doca_task_submit` for a task bound to
connection `id` — a task may only be submitted on an Established connection;
referencing a disconnected (or otherwise non-Established) connection fails
with `DOCA_ERROR_BAD_STATE`. -/
def doca_task_submit (r : DocaRdma) (id : Nat) : Except DocaError DocaRdma :=
  match lookupConn r id with
  | some ConnState.established => Except.ok { r with inFlight := r.inFlight + 1 }
  | _ => Except.error DocaError.badState

/-- Modelled from the spec: `doca_rdma_destroy` — fails with
`DOCA_ERROR_BAD_STATE` (leaving the instance intact) unless the associated
context was stopped. -/
def doca_rdma_destroy (r : DocaRdma) : Except DocaError Unit :=
  if r.state = CtxState.stopped then Except.ok () else Except.error DocaError.badState

/-- Modelled from the spec: `doca_ctx_stop` on a Running context — moves the
context to Stopping and initiates teardown of every connection. -/
def doca_ctx_stop (r : DocaRdma) : DocaRdma :=
  if r.state = CtxState.running then
    { r with state := CtxState.stopping
             conns := r.conns.map (fun p => (p.1, ConnState.disconnected)) }
  else r

/-- Modelled from the spec: one progress pass of the drain phase — while
Stopping, each pass forcibly completes one in-flight task; once none remain
the context reaches Stopped.  Outside Stopping the pass is a no-op. -/
def drainStep (r : DocaRdma) : DocaRdma :=
  if r.state = CtxState.stopping then
    if r.inFlight = 0 then { r with state := CtxState.stopped }
    else { r with inFlight := r.inFlight - 1 }
  else r

/-- A complete drain cycle: enough progress passes for every in-flight task
to complete and the Stopped state to be observed. -/
def drain (r : DocaRdma) : DocaRdma := drainStep^[r.inFlight + 1] r

/-- An atomic compare-and-swap task, after the parameter list of
`doca_rdma_task_atomic_cmp_swp_allocate_init`: the connection it is bound
to, the remote destination address (the 8-byte cell the atomic operates on),
the local result-buffer address, and the two 8-byte operands. -/
structure AtomicCmpSwpTask : Type where
  connId : Nat
  dstAddr : Nat
  resultAddr : Nat
  cmpData : Nat
  swapData : Nat
  deriving DecidableEq, Repr

/-- Modelled from the spec: execution of an atomic compare-and-swap task
(`doca_rdma_task_atomic_cmp_swp`).  Memories map addresses to 8-byte values.
The task may only execute on an Established connection; otherwise it fails
with `DOCA_ERROR_BAD_STATE`.  The whole read-compare-swap is one indivisible
step of the model, mirroring the header's note that the process of reading
the original remote value, comparing it and swapping it is atomic: it reads
the remote 8-byte value `v` at `dstAddr`, swaps it with `swapData` exactly
when `v = cmpData`, and writes the original `v` to the local result buffer.
Returns the updated remote and local memories. -/
def doca_rdma_task_atomic_cmp_swp_exec (r : DocaRdma) (t : AtomicCmpSwpTask)
    (remoteMem localMem : Nat → Nat) : Except DocaError ((Nat → Nat) × (Nat → Nat)) :=
  match lookupConn r t.connId with
  | some ConnState.established =>
    let v := remoteMem t.dstAddr
    Except.ok
      (if v = t.cmpData then Function.update remoteMem t.dstAddr t.swapData else remoteMem,
        Function.update localMem t.resultAddr v)
  | _ => Except.error DocaError.badState

/-- Lifecycle of a receive task, following the ownership design of the spec:
free in the pool, submitted (owned by the progress engine), or completed
with a success flag and the result fields recorded at completion time. -/
inductive RecvLifecycle : Type
  | free
  | submitted
  | completed (success : Bool) (opcode : RdmaOpcode) (len : Nat) (immData : Nat)
  deriving DecidableEq, Repr

/-- A receive task (`struct doca_rdma_task_receive`): its destination buffer
reference (an opaque handle, `none` for an empty receive), user data, and
lifecycle state. -/
structure RdmaTaskReceive : Type where
  dstBuf : Option Nat
  userData : Nat
  lifecycle : RecvLifecycle
  deriving DecidableEq, Repr

/-- Modelled from the spec: `doca_rdma_task_receive_get_result_opcode` —
valid only after completion of the task, otherwise undefined behavior; the
total embedding returns `none` outside that precondition. -/
def doca_rdma_task_receive_get_result_opcode (t : RdmaTaskReceive) : Option RdmaOpcode :=
  match t.lifecycle with
  | RecvLifecycle.completed _ op _ _ => some op
  | _ => none

/-- Modelled from the spec: `doca_rdma_task_receive_get_result_len` — valid
only on successful completion of the task, otherwise undefined behavior; the
total embedding returns `none` outside that precondition. -/
def doca_rdma_task_receive_get_result_len (t : RdmaTaskReceive) : Option Nat :=
  match t.lifecycle with
  | RecvLifecycle.completed true _ len _ => some len
  | _ => none

/-- Modelled from the spec:
`doca_rdma_task_receive_get_result_immediate_data` — valid only on
successful completion and when the result opcode is
`DOCA_RDMA_OPCODE_RECV_SEND_WITH_IMM` or
`DOCA_RDMA_OPCODE_RECV_WRITE_WITH_IMM`, otherwise undefined behavior; the
total embedding returns `none` outside those preconditions. -/
def doca_rdma_task_receive_get_result_immediate_data (t : RdmaTaskReceive) : Option Nat :=
  match t.lifecycle with
  | RecvLifecycle.completed true op _ imm =>
    if op = RdmaOpcode.recvSendWithImm ∨ op = RdmaOpcode.recvWriteWithImm then some imm
    else none
  | _ => none

/-- One side of a connection, for the teardown protocol: its view of the
connection state and the number of disconnection callbacks its registered
handler has received. -/
structure ConnEndpoint : Type where
  connState : ConnState
  discCbCount : Nat
  deriving DecidableEq, Repr

/-- Modelled from the spec: `doca_rdma_connection_disconnect` — either side
may call it on an Established connection; the teardown then propagates to
both sides, whose progress engines later deliver the disconnection callback.
Calling it on a connection the caller no longer holds Established fails. -/
def doca_rdma_connection_disconnect (caller peer : ConnEndpoint) :
    Except DocaError (ConnEndpoint × ConnEndpoint) :=
  if caller.connState = ConnState.established then
    Except.ok ({ caller with connState := ConnState.disconnecting },
      { peer with connState := ConnState.disconnecting })
  else Except.error DocaError.invalidValue

/-- Modelled from the spec: the connection-teardown part of one
`doca_pe_progress` pass on one side — once the transport confirms teardown
the side's disconnection callback (`doca_rdma_connection_disconnection_cb_t`)
is invoked exactly once and the connection becomes Disconnected, a terminal
state on which further passes do nothing. -/
def pe_progress_conn (e : ConnEndpoint) : ConnEndpoint :=
  if e.connState = ConnState.disconnecting then
    { connState := ConnState.disconnected, discCbCount := e.discCbCount + 1 }
  else e

/-- Modelled from the spec: one GPU-side RDMA queue
(`struct doca_gpu_dev_rdma`, `doca_gpunetio_dev_rdma.cuh`).  The hardware
ring is abstracted by unbounded raw positions (raw position = wrap count ×
ring size + masked index; the hardware masks a raw position into the ring
with `mask_max_position`).  `slots` holds the operation enqueued at each raw
position; `committed` is the commit watermark — operations at raw positions
below it are visible to the transport — and doubles as the next available
position reported by `get_info`, which the library updates only at commit;
`enqueued` is the internal cursor the strong discipline serializes through. -/
structure GpuRdmaQueue (α : Type) : Type where
  maskMaxPosition : Nat
  slots : Nat → Option α
  committed : Nat
  enqueued : Nat

/-- Modelled from the spec: `doca_gpu_dev_rdma_get_info` — returns the next
available position in the queue and the mask of the maximal usable index. -/
def doca_gpu_dev_rdma_get_info (q : GpuRdmaQueue α) : Nat × Nat :=
  (q.committed, q.maskMaxPosition)

/-- Modelled from the spec: the weak-discipline enqueue calls
(`doca_gpu_dev_rdma_write_weak`, ...) — the caller supplies the explicit
`position` (slot index) the operation occupies; gapless sequential
assignment is the caller's responsibility.  The enqueue alone does not make
the operation visible. -/
def doca_gpu_dev_rdma_write_weak (q : GpuRdmaQueue α) (op : α) (position : Nat) :
    GpuRdmaQueue α :=
  { q with slots := Function.update q.slots position (some op) }

/-- Modelled from the spec: the strong-discipline enqueue calls
(`doca_gpu_dev_rdma_write_strong`, ...) — the slot is computed internally,
serializing all submitters through the internal cursor. -/
def doca_gpu_dev_rdma_write_strong (q : GpuRdmaQueue α) (op : α) : GpuRdmaQueue α :=
  { q with slots := Function.update q.slots q.enqueued (some op)
           enqueued := q.enqueued + 1 }

/-- Modelled from the spec: `doca_gpu_dev_rdma_commit_weak` — makes the
`num_ops` operations enqueued since the previous commit visible to the
transport by advancing the watermark by `num_ops`. -/
def doca_gpu_dev_rdma_commit_weak (q : GpuRdmaQueue α) (numOps : Nat) : GpuRdmaQueue α :=
  { q with committed := q.committed + numOps }

/-- Modelled from the spec: `doca_gpu_dev_rdma_commit_strong` — makes every
operation enqueued through the strong discipline visible. -/
def doca_gpu_dev_rdma_commit_strong (q : GpuRdmaQueue α) : GpuRdmaQueue α :=
  { q with committed := q.enqueued }

/-- The sequence the transport executes: the visible slots in slot-index
order (index order is execution order on the queue). -/
def execSeq (q : GpuRdmaQueue α) : List (Option α) :=
  (List.range q.committed).map q.slots

/-- A thread group enqueueing `ops` at the gapless sequential positions
`start, start+1, ...` through the weak discipline. -/
def writeWeakSeq (q : GpuRdmaQueue α) (start : Nat) : List α → GpuRdmaQueue α
  | [] => q
  | op :: rest => writeWeakSeq (doca_gpu_dev_rdma_write_weak q op start) (start + 1) rest

/-- Submitters enqueueing `ops`, in submission order, through the strong
discipline. -/
def writeStrongSeq (q : GpuRdmaQueue α) : List α → GpuRdmaQueue α
  | [] => q
  | op :: rest => writeStrongSeq (doca_gpu_dev_rdma_write_strong q op) rest

/-! ### Properties of the power-of-two rounding -/

theorem pow2geAux_ge (n : Nat) : ∀ fuel k, n ≤ 2 ^ (k + fuel) → n ≤ pow2geAux n fuel k := by
  intro fuel
  induction fuel with
  | zero => intro k h; simpa using h
  | succ m ih =>
    intro k h
    unfold pow2geAux
    split
    · assumption
    · refine ih (k + 1) ?_
      have he : k + 1 + m = k + (m + 1) := by omega
      rw [he]
      exact h

theorem pow2geAux_isPow (n : Nat) : ∀ fuel k, ∃ j, pow2geAux n fuel k = 2 ^ j := by
  intro fuel
  induction fuel with
  | zero => intro k; exact ⟨k, rfl⟩
  | succ m ih =>
    intro k
    unfold pow2geAux
    split
    · exact ⟨k, rfl⟩
    · exact ih (k + 1)

theorem pow2geAux_min (n : Nat) :
    ∀ fuel k m, k ≤ m → m - k ≤ fuel → n ≤ 2 ^ m → pow2geAux n fuel k ≤ 2 ^ m := by
  intro fuel
  induction fuel with
  | zero =>
    intro k m hkm hfuel _
    have he : m = k := by omega
    subst he
    simp [pow2geAux]
  | succ f ih =>
    intro k m hkm hfuel hm
    unfold pow2geAux
    split
    · exact Nat.pow_le_pow_right (by norm_num) hkm
    · rename_i hlt
      have hkm' : k < m := by
        rcases Nat.lt_or_ge k m with h | h
        · exact h
        · exact absurd (le_trans hm (Nat.pow_le_pow_right (by norm_num) (le_antisymm hkm h ▸ le_refl m))) hlt
      exact ih (k + 1) m hkm' (by omega) hm

theorem le_nextPow2 (n : Nat) : n ≤ nextPow2 n :=
  pow2geAux_ge n n 0 (by simpa using (Nat.lt_two_pow n).le)

theorem nextPow2_isPow (n : Nat) : ∃ j, nextPow2 n = 2 ^ j := pow2geAux_isPow n n 0

theorem nextPow2_le_pow (n m : Nat) (h : n ≤ 2 ^ m) : nextPow2 n ≤ 2 ^ m := by
  rcases le_or_lt m n with hmn | hnm
  · exact pow2geAux_min n n 0 m (Nat.zero_le m) (by omega) h
  · have h1 : nextPow2 n ≤ 2 ^ n :=
      pow2geAux_min n n 0 n (Nat.zero_le n) (by omega) (Nat.lt_two_pow n).le
    exact le_trans h1 (Nat.pow_le_pow_right (by norm_num) hnm.le)

theorem lt_nextPow2_of_not_pow (n : Nat) (h : ¬∃ j, n = 2 ^ j) : n < nextPow2 n := by
  refine lt_of_le_of_ne (le_nextPow2 n) (fun he => h ?_)
  obtain ⟨j, hj⟩ := nextPow2_isPow n
  exact ⟨j, he.trans hj⟩

/-! ### Common lemmas about the Idle gate of property setters -/

theorem setPropIdle_not_idle (r : DocaRdma) (f : RdmaProps → RdmaProps)
    (h : r.state ≠ CtxState.idle) :
    setPropIdle r f = Except.error DocaError.badState := by
  simp [setPropIdle, h]

theorem setPropIdle_idle (r : DocaRdma) (f : RdmaProps → RdmaProps)
    (h : r.state = CtxState.idle) :
    setPropIdle r f = Except.ok { r with props := f r.props } := by
  simp [setPropIdle, h]

/-! ### Claim theorems -/

/-- C9: a send-queue-size setter call accepted while the context is Idle
stores the requested value rounded up to the next power of two — the least
power of two that is at least the requested value — and the matching getter
returns this actual in-use size, which is strictly larger than the request
whenever the request is not itself a power of two (so set-then-get is not
the identity there). -/
theorem send_queue_size_rounding (r : DocaRdma) (v : Nat)
    (hidle : r.state = CtxState.idle) (hv : v ≠ 0) :
    ∃ r', doca_rdma_set_send_queue_size r v = Except.ok r' ∧
      doca_rdma_get_send_queue_size r' = nextPow2 v ∧
      v ≤ nextPow2 v ∧ (∃ j, nextPow2 v = 2 ^ j) ∧
      (∀ m, v ≤ 2 ^ m → nextPow2 v ≤ 2 ^ m) ∧
      ((¬∃ j, v = 2 ^ j) → v < nextPow2 v) := by
  refine ⟨{ r with props := { r.props with sendQueueSize := nextPow2 v } }, ?_, rfl,
    le_nextPow2 v, nextPow2_isPow v, fun m hm => nextPow2_le_pow v m hm,
    lt_nextPow2_of_not_pow v⟩
  simp [doca_rdma_set_send_queue_size, hv, setPropIdle, hidle]

/-- Witness for `send_queue_size_rounding` at the freshly created instance
and the concrete request 3. -/
theorem send_queue_size_rounding_witness :
    doca_rdma_create.state = CtxState.idle ∧ (3 : Nat) ≠ 0 ∧
      (∃ r', doca_rdma_set_send_queue_size doca_rdma_create 3 = Except.ok r' ∧
        doca_rdma_get_send_queue_size r' = nextPow2 3 ∧
        3 ≤ nextPow2 3 ∧ (∃ j, nextPow2 3 = 2 ^ j) ∧
        (∀ m, 3 ≤ 2 ^ m → nextPow2 3 ≤ 2 ^ m) ∧
        ((¬∃ j, (3 : Nat) = 2 ^ j) → 3 < nextPow2 3)) :=
  ⟨rfl, by decide, send_queue_size_rounding doca_rdma_create 3 rfl (by decide)⟩

/-- C3 counterexample: setting the send queue size to 3 while Idle succeeds,
but the matching getter then returns 4, not the value 3 that was set — so
the matching getter does not return the value that was set. -/
theorem prop_set_get_roundtrip_cex :
    (doca_rdma_set_send_queue_size doca_rdma_create 3).map doca_rdma_get_send_queue_size =
      Except.ok 4 ∧ (4 : Nat) ≠ 3 := by
  exact ⟨rfl, by decide⟩

/-- C3 (amended): every mutable context property setter invoked after the
context has started (state not Idle) fails with BadState and leaves the
property unchanged; invoked while Idle it succeeds, and the matching getter
then returns the stored value — the requested value rounded up to the next
power of two for the send/receive queue sizes, and exactly the value that
was set for every other property. -/
theorem prop_setters_idle_gated (r : DocaRdma) (vq v : Nat) (tt : TransportType)
    (hq : vq ≠ 0) :
    (r.state ≠ CtxState.idle →
      doca_rdma_set_send_queue_size r vq = Except.error DocaError.badState ∧
      doca_rdma_set_recv_queue_size r vq = Except.error DocaError.badState ∧
      doca_rdma_set_mtu r v = Except.error DocaError.badState ∧
      doca_rdma_set_transport_type r tt = Except.error DocaError.badState ∧
      doca_rdma_set_permissions r v = Except.error DocaError.badState ∧
      doca_rdma_set_gid_index r v = Except.error DocaError.badState ∧
      doca_rdma_set_sl r v = Except.error DocaError.badState ∧
      doca_rdma_set_connection_request_timeout r v = Except.error DocaError.badState ∧
      doca_rdma_set_max_num_connections r v = Except.error DocaError.badState) ∧
    (r.state = CtxState.idle →
      (∃ r', doca_rdma_set_send_queue_size r vq = Except.ok r' ∧
        doca_rdma_get_send_queue_size r' = nextPow2 vq) ∧
      (∃ r', doca_rdma_set_recv_queue_size r vq = Except.ok r' ∧
        doca_rdma_get_recv_queue_size r' = nextPow2 vq) ∧
      (∃ r', doca_rdma_set_mtu r v = Except.ok r' ∧ doca_rdma_get_mtu r' = v) ∧
      (∃ r', doca_rdma_set_transport_type r tt = Except.ok r' ∧
        doca_rdma_get_transport_type r' = tt) ∧
      (∃ r', doca_rdma_set_permissions r v = Except.ok r' ∧
        doca_rdma_get_permissions r' = v) ∧
      (∃ r', doca_rdma_set_gid_index r v = Except.ok r' ∧ doca_rdma_get_gid_index r' = v) ∧
      (∃ r', doca_rdma_set_sl r v = Except.ok r' ∧ doca_rdma_get_sl r' = v) ∧
      (∃ r', doca_rdma_set_connection_request_timeout r v = Except.ok r' ∧
        doca_rdma_get_connection_request_timeout r' = v) ∧
      (∃ r', doca_rdma_set_max_num_connections r v = Except.ok r' ∧
        doca_rdma_get_max_num_connections r' = v)) := by
  constructor
  · intro h
    refine ⟨?_, ?_, ?_, ?_, ?_, ?_, ?_, ?_, ?_⟩ <;>
      simp [doca_rdma_set_send_queue_size, doca_rdma_set_recv_queue_size, doca_rdma_set_mtu,
        doca_rdma_set_transport_type, doca_rdma_set_permissions, doca_rdma_set_gid_index,
        doca_rdma_set_sl, doca_rdma_set_connection_request_timeout,
        doca_rdma_set_max_num_connections, hq, setPropIdle, h]
  · intro h
    exact
      ⟨⟨{ r with props := { r.props with sendQueueSize := nextPow2 vq } },
          by simp [doca_rdma_set_send_queue_size, hq, setPropIdle, h], rfl⟩,
        ⟨{ r with props := { r.props with recvQueueSize := nextPow2 vq } },
          by simp [doca_rdma_set_recv_queue_size, hq, setPropIdle, h], rfl⟩,
        ⟨{ r with props := { r.props with mtu := v } },
          by simp [doca_rdma_set_mtu, setPropIdle, h], rfl⟩,
        ⟨{ r with props := { r.props with transportType := tt } },
          by simp [doca_rdma_set_transport_type, setPropIdle, h], rfl⟩,
        ⟨{ r with props := { r.props with permissions := v } },
          by simp [doca_rdma_set_permissions, setPropIdle, h], rfl⟩,
        ⟨{ r with props := { r.props with gidIndex := v } },
          by simp [doca_rdma_set_gid_index, setPropIdle, h], rfl⟩,
        ⟨{ r with props := { r.props with sl := v } },
          by simp [doca_rdma_set_sl, setPropIdle, h], rfl⟩,
        ⟨{ r with props := { r.props with connectionRequestTimeout := v } },
          by simp [doca_rdma_set_connection_request_timeout, setPropIdle, h], rfl⟩,
        ⟨{ r with props := { r.props with maxNumConnections := v } },
          by simp [doca_rdma_set_max_num_connections, setPropIdle, h], rfl⟩⟩

/-- Witness for `prop_setters_idle_gated`: concrete non-Idle and Idle
instances with the request 5. -/
theorem prop_setters_idle_gated_witness :
    (5 : Nat) ≠ 0 ∧
      ({ doca_rdma_create with state := CtxState.running } : DocaRdma).state ≠ CtxState.idle ∧
      doca_rdma_set_mtu { doca_rdma_create with state := CtxState.running } 5 =
        Except.error DocaError.badState ∧
      doca_rdma_create.state = CtxState.idle ∧
      (∃ r', doca_rdma_set_send_queue_size doca_rdma_create 5 = Except.ok r' ∧
        doca_rdma_get_send_queue_size r' = nextPow2 5) :=
  ⟨by decide, by decide,
    ((prop_setters_idle_gated { doca_rdma_create with state := CtxState.running } 5 5
      TransportType.rc (by decide)).1 (by decide)).2.2.1,
    rfl,
    ((prop_setters_idle_gated doca_rdma_create 5 5 TransportType.rc (by decide)).2 rfl).1⟩

/-- C7: for every task kind, the per-kind task configuration call
(`*_set_conf`) succeeds exactly while the context is Idle; in any other
state it fails with BadState, returning no updated instance (the existing
task configuration is unchanged); while Idle it stores the given
configuration for that kind. -/
theorem task_set_conf_idle_only (r : DocaRdma) (k : TaskKind) (c : TaskConf) :
    ((∃ r', task_set_conf r k c = Except.ok r') ↔ r.state = CtxState.idle) ∧
    (r.state ≠ CtxState.idle → task_set_conf r k c = Except.error DocaError.badState) ∧
    (r.state = CtxState.idle →
      task_set_conf r k c = Except.ok { r with taskConf := Function.update r.taskConf k c }) := by
  by_cases h : r.state = CtxState.idle
  · refine ⟨⟨fun _ => h,
      fun _ => ⟨{ r with taskConf := Function.update r.taskConf k c }, ?_⟩⟩,
      fun hc => absurd h hc, fun _ => ?_⟩ <;> simp [task_set_conf, h]
  · refine ⟨⟨fun ⟨r', hr'⟩ => ?_, fun hc => absurd hc h⟩, fun _ => ?_, fun hc => absurd hc h⟩
    · rw [task_set_conf, if_neg h] at hr'
      exact absurd hr' (by simp)
    · simp [task_set_conf, h]

/-- Witness for `task_set_conf_idle_only`: the Running instance rejects the
receive-task configuration with BadState; the Idle instance accepts it. -/
theorem task_set_conf_idle_only_witness :
    (({ doca_rdma_create with state := CtxState.running } : DocaRdma).state ≠ CtxState.idle ∧
      task_set_conf { doca_rdma_create with state := CtxState.running } TaskKind.receive
        { successCb := 1, errorCb := 2, numTasks := 4 } = Except.error DocaError.badState) ∧
    (doca_rdma_create.state = CtxState.idle ∧
      task_set_conf doca_rdma_create TaskKind.receive
        { successCb := 1, errorCb := 2, numTasks := 4 } =
        Except.ok { doca_rdma_create with
          taskConf := Function.update doca_rdma_create.taskConf TaskKind.receive
            { successCb := 1, errorCb := 2, numTasks := 4 } }) :=
  ⟨⟨by decide,
      (task_set_conf_idle_only { doca_rdma_create with state := CtxState.running }
        TaskKind.receive { successCb := 1, errorCb := 2, numTasks := 4 }).2.1 (by decide)⟩,
    ⟨rfl,
      (task_set_conf_idle_only doca_rdma_create TaskKind.receive
        { successCb := 1, errorCb := 2, numTasks := 4 }).2.2 rfl⟩⟩

/-- C4: for every task kind, allocate-init fails with the resource-exhaustion
code exactly when all `numTasks` pool slots configured for that kind are in
use, and succeeds — yielding the updated instance and the allocated slot —
whenever a free slot exists; the pool is fixed-size: allocation never
changes the configured capacity. -/
theorem task_allocate_pool_exhaustion (r : DocaRdma) (k : TaskKind)
    (hwf : r.poolInUse k ≤ (r.taskConf k).numTasks) :
    (task_allocate_init r k = Except.error DocaError.noMemory ↔
      r.poolInUse k = (r.taskConf k).numTasks) ∧
    (r.poolInUse k < (r.taskConf k).numTasks →
      task_allocate_init r k =
        Except.ok ({ r with poolInUse := Function.update r.poolInUse k (r.poolInUse k + 1) },
          r.poolInUse k)) ∧
    (∀ r' idx, task_allocate_init r k = Except.ok (r', idx) →
      r'.taskConf = r.taskConf ∧ r'.poolInUse k = r.poolInUse k + 1) := by
  by_cases h : r.poolInUse k < (r.taskConf k).numTasks
  · refine ⟨⟨fun he => ?_, fun he => absurd h (by omega)⟩, fun _ => ?_, fun r' idx hr' => ?_⟩
    · rw [task_allocate_init, if_pos h] at he
      exact absurd he (by simp)
    · simp [task_allocate_init, h]
    · rw [task_allocate_init, if_pos h] at hr'
      obtain ⟨h1, -⟩ := Prod.mk.injEq .. ▸ Except.ok.injEq .. ▸ hr'
      constructor
      · rw [← h1]
      · rw [← h1]
        simp
  · have he : r.poolInUse k = (r.taskConf k).numTasks := by omega
    refine ⟨⟨fun _ => he, fun _ => ?_⟩, fun hc => absurd hc h, fun r' idx hr' => ?_⟩
    · simp [task_allocate_init, h]
    · rw [task_allocate_init, if_neg h] at hr'
      exact absurd hr' (by simp)

/-- Witness for `task_allocate_pool_exhaustion`: a pool of capacity 1 —
empty, allocation succeeds; full, allocation reports exhaustion. -/
theorem task_allocate_pool_exhaustion_witness :
    (({ doca_rdma_create with taskConf := fun _ => { successCb := 0, errorCb := 0, numTasks := 1 } }
        : DocaRdma).poolInUse TaskKind.receive ≤ 1 ∧
      (task_allocate_init
          { doca_rdma_create with
            taskConf := fun _ => { successCb := 0, errorCb := 0, numTasks := 1 } }
          TaskKind.receive = Except.error DocaError.noMemory ↔ (0 : Nat) = 1)) ∧
    (({ doca_rdma_create with
          taskConf := fun _ => { successCb := 0, errorCb := 0, numTasks := 1 }
          poolInUse := fun _ => 1 } : DocaRdma).poolInUse TaskKind.receive ≤ 1 ∧
      (task_allocate_init
          { doca_rdma_create with
            taskConf := fun _ => { successCb := 0, errorCb := 0, numTasks := 1 }
            poolInUse := fun _ => 1 }
          TaskKind.receive = Except.error DocaError.noMemory ↔ (1 : Nat) = 1)) :=
  ⟨⟨by decide,
      (task_allocate_pool_exhaustion
        { doca_rdma_create with
          taskConf := fun _ => { successCb := 0, errorCb := 0, numTasks := 1 } }
        TaskKind.receive (by decide)).1⟩,
    ⟨by decide,
      (task_allocate_pool_exhaustion
        { doca_rdma_create with
          taskConf := fun _ => { successCb := 0, errorCb := 0, numTasks := 1 }
          poolInUse := fun _ => 1 }
        TaskKind.receive (by decide)).1⟩⟩

/-- C10: the receive-task result accessors are partial functions of the
task's lifecycle: the result opcode is defined (returns the recorded value)
exactly after completion; the result length only after successful
completion; the immediate data only after successful completion whose
opcode is RECV_SEND_WITH_IMM or RECV_WRITE_WITH_IMM; outside these
preconditions the total embedding returns no value. -/
theorem recv_result_accessors_lifecycle (t : RdmaTaskReceive) :
    (∀ s op len imm, t.lifecycle = RecvLifecycle.completed s op len imm →
      doca_rdma_task_receive_get_result_opcode t = some op) ∧
    ((t.lifecycle = RecvLifecycle.free ∨ t.lifecycle = RecvLifecycle.submitted) →
      doca_rdma_task_receive_get_result_opcode t = none ∧
      doca_rdma_task_receive_get_result_len t = none ∧
      doca_rdma_task_receive_get_result_immediate_data t = none) ∧
    (∀ op len imm, t.lifecycle = RecvLifecycle.completed true op len imm →
      doca_rdma_task_receive_get_result_len t = some len) ∧
    (∀ op len imm, t.lifecycle = RecvLifecycle.completed false op len imm →
      doca_rdma_task_receive_get_result_len t = none ∧
      doca_rdma_task_receive_get_result_immediate_data t = none) ∧
    (∀ op len imm, t.lifecycle = RecvLifecycle.completed true op len imm →
      (op = RdmaOpcode.recvSendWithImm ∨ op = RdmaOpcode.recvWriteWithImm) →
      doca_rdma_task_receive_get_result_immediate_data t = some imm) ∧
    (∀ len imm, t.lifecycle = RecvLifecycle.completed true RdmaOpcode.recvSend len imm →
      doca_rdma_task_receive_get_result_immediate_data t = none) := by
  refine ⟨fun s op len imm h => ?_, fun h => ?_, fun op len imm h => ?_,
    fun op len imm h => ?_, fun op len imm h hop => ?_, fun len imm h => ?_⟩
  · simp [doca_rdma_task_receive_get_result_opcode, h]
  · rcases h with h | h <;>
      simp [doca_rdma_task_receive_get_result_opcode, doca_rdma_task_receive_get_result_len,
        doca_rdma_task_receive_get_result_immediate_data, h]
  · simp [doca_rdma_task_receive_get_result_len, h]
  · simp [doca_rdma_task_receive_get_result_len,
      doca_rdma_task_receive_get_result_immediate_data, h]
  · rcases hop with hop | hop <;>
      simp [doca_rdma_task_receive_get_result_immediate_data, h, hop]
  · simp [doca_rdma_task_receive_get_result_immediate_data, h]

/-- Witness for `recv_result_accessors_lifecycle` on a successfully completed
task that received a send-with-immediate, and on a submitted task. -/
theorem recv_result_accessors_lifecycle_witness :
    (({ dstBuf := none, userData := 0,
        lifecycle := RecvLifecycle.completed true RdmaOpcode.recvSendWithImm 5 7 }
        : RdmaTaskReceive).lifecycle =
        RecvLifecycle.completed true RdmaOpcode.recvSendWithImm 5 7 ∧
      doca_rdma_task_receive_get_result_opcode
        { dstBuf := none, userData := 0,
          lifecycle := RecvLifecycle.completed true RdmaOpcode.recvSendWithImm 5 7 } =
        some RdmaOpcode.recvSendWithImm ∧
      doca_rdma_task_receive_get_result_len
        { dstBuf := none, userData := 0,
          lifecycle := RecvLifecycle.completed true RdmaOpcode.recvSendWithImm 5 7 } = some 5 ∧
      doca_rdma_task_receive_get_result_immediate_data
        { dstBuf := none, userData := 0,
          lifecycle := RecvLifecycle.completed true RdmaOpcode.recvSendWithImm 5 7 } = some 7) ∧
    (({ dstBuf := none, userData := 0, lifecycle := RecvLifecycle.submitted }
        : RdmaTaskReceive).lifecycle = RecvLifecycle.submitted ∧
      doca_rdma_task_receive_get_result_opcode
        { dstBuf := none, userData := 0, lifecycle := RecvLifecycle.submitted } = none) :=
  ⟨⟨rfl,
      (recv_result_accessors_lifecycle _).1 true RdmaOpcode.recvSendWithImm 5 7 rfl,
      (recv_result_accessors_lifecycle _).2.2.1 RdmaOpcode.recvSendWithImm 5 7 rfl,
      (recv_result_accessors_lifecycle _).2.2.2.2.1 RdmaOpcode.recvSendWithImm 5 7 rfl
        (Or.inl rfl)⟩,
    ⟨rfl, ((recv_result_accessors_lifecycle _).2.1 (Or.inr rfl)).1⟩⟩

/-- C1: an atomic compare-and-swap task executed on an Established
connection succeeds as one indivisible step of the model: with `v` the
8-byte value at the remote destination when the operation executes, if
`v = cmp_data` the remote location becomes `swap_data` (all other remote
locations untouched) and the local result buffer receives `v`; if
`v ≠ cmp_data` the remote memory is left entirely unchanged and the result
buffer still receives the actual pre-operation value `v`. -/
theorem atomic_cmp_swp_semantics (r : DocaRdma) (t : AtomicCmpSwpTask)
    (remoteMem localMem : Nat → Nat)
    (h : lookupConn r t.connId = some ConnState.established) :
    ∃ rm lm,
      doca_rdma_task_atomic_cmp_swp_exec r t remoteMem localMem = Except.ok (rm, lm) ∧
      lm t.resultAddr = remoteMem t.dstAddr ∧
      (∀ a, a ≠ t.resultAddr → lm a = localMem a) ∧
      (remoteMem t.dstAddr = t.cmpData →
        rm t.dstAddr = t.swapData ∧ ∀ a, a ≠ t.dstAddr → rm a = remoteMem a) ∧
      (remoteMem t.dstAddr ≠ t.cmpData → rm = remoteMem) := by
  refine ⟨(if remoteMem t.dstAddr = t.cmpData then
      Function.update remoteMem t.dstAddr t.swapData else remoteMem),
    Function.update localMem t.resultAddr (remoteMem t.dstAddr), ?_, ?_, ?_, ?_, ?_⟩
  · simp [doca_rdma_task_atomic_cmp_swp_exec, h]
  · exact Function.update_same _ _ _
  · intro a ha
    exact Function.update_noteq ha _ _
  · intro hc
    rw [if_pos hc]
    exact ⟨Function.update_same _ _ _, fun a ha => Function.update_noteq ha _ _⟩
  · intro hc
    rw [if_neg hc]

/-- Witness for `atomic_cmp_swp_semantics`: connection 5 is Established;
the remote cell holds 42. -/
theorem atomic_cmp_swp_semantics_witness :
    lookupConn
        { doca_rdma_create with
          conns := [(5, ConnState.established)]
          nextConnId := 6 } 5 = some ConnState.established ∧
      ∃ rm lm,
        doca_rdma_task_atomic_cmp_swp_exec
            { doca_rdma_create with
              conns := [(5, ConnState.established)]
              nextConnId := 6 }
            { connId := 5, dstAddr := 0, resultAddr := 1, cmpData := 42, swapData := 99 }
            (fun _ => 42) (fun _ => 0) = Except.ok (rm, lm) ∧
        lm 1 = (fun _ => (42 : Nat)) 0 ∧
        (∀ a, a ≠ 1 → lm a = (fun _ => (0 : Nat)) a) ∧
        ((fun _ => (42 : Nat)) 0 = 42 →
          rm 0 = 99 ∧ ∀ a, a ≠ 0 → rm a = (fun _ => (42 : Nat)) a) ∧
        ((fun _ => (42 : Nat)) 0 ≠ 42 → rm = fun _ => (42 : Nat)) :=
  ⟨rfl,
    atomic_cmp_swp_semantics
      { doca_rdma_create with conns := [(5, ConnState.established)], nextConnId := 6 }
      { connId := 5, dstAddr := 0, resultAddr := 1, cmpData := 42, swapData := 99 }
      (fun _ => 42) (fun _ => 0) rfl⟩

/-! ### Pool allocate/free round trips -/

theorem freeN_poolInUse (k : TaskKind) (n : Nat) (r : DocaRdma) :
    (freeN k n r).poolInUse k = r.poolInUse k - n ∧
    (∀ k2, k2 ≠ k → (freeN k n r).poolInUse k2 = r.poolInUse k2) ∧
    (freeN k n r).taskConf = r.taskConf := by
  induction n generalizing r with
  | zero => exact ⟨rfl, fun _ _ => rfl, rfl⟩
  | succ m ih =>
    obtain ⟨h1, h2, h3⟩ := ih (doca_task_free r k)
    refine ⟨?_, fun k2 hk2 => ?_, ?_⟩
    · show (freeN k m (doca_task_free r k)).poolInUse k = r.poolInUse k - (m + 1)
      rw [h1]
      simp only [doca_task_free, Function.update_same]
      omega
    · show (freeN k m (doca_task_free r k)).poolInUse k2 = r.poolInUse k2
      rw [h2 k2 hk2]
      simp only [doca_task_free]
      exact Function.update_noteq hk2 _ _
    · exact h3

theorem allocN_ok (k : TaskKind) (n : Nat) (r : DocaRdma) (h : n ≤ freeSlots r k) :
    ∃ r', allocN k n r = some r' ∧ r'.poolInUse k = r.poolInUse k + n ∧
      r'.taskConf = r.taskConf ∧
      (∀ k2, k2 ≠ k → r'.poolInUse k2 = r.poolInUse k2) := by
  induction n generalizing r with
  | zero => exact ⟨r, rfl, rfl, rfl, fun _ _ => rfl⟩
  | succ m ih =>
    have hlt : r.poolInUse k < (r.taskConf k).numTasks := by
      unfold freeSlots at h
      omega
    have halloc : task_allocate_init r k =
        Except.ok ({ r with poolInUse := Function.update r.poolInUse k (r.poolInUse k + 1) },
          r.poolInUse k) := by
      simp [task_allocate_init, hlt]
    have hfree : m ≤ freeSlots
        { r with poolInUse := Function.update r.poolInUse k (r.poolInUse k + 1) } k := by
      unfold freeSlots at h ⊢
      simp only [Function.update_same]
      omega
    obtain ⟨r', hr', hp, hc, ho⟩ := ih _ hfree
    refine ⟨r', ?_, ?_, hc, fun k2 hk2 => ?_⟩
    · show allocN k (m + 1) r = some r'
      simp only [allocN, halloc]
      exact hr'
    · rw [hp]
      simp only [Function.update_same]
      omega
    · rw [ho k2 hk2]
      exact Function.update_noteq hk2 _ _

/-- C8: for every task kind, a sequence of `n` successful allocate-init
calls (possible whenever `n` does not exceed the pool's free-slot count)
followed by `n` frees of those tasks, none submitted, restores the pool to
its initial free-slot count and leaves the other kinds' pools untouched;
when the `n` allocations exhausted the pool, allocation reports exhaustion
there and succeeds again after the `n` frees. -/
theorem alloc_free_restores_pool (r : DocaRdma) (k : TaskKind) (n : Nat)
    (h : n ≤ freeSlots r k) :
    ∃ r', allocN k n r = some r' ∧
      r'.poolInUse k = r.poolInUse k + n ∧
      (freeN k n r').poolInUse k = r.poolInUse k ∧
      freeSlots (freeN k n r') k = freeSlots r k ∧
      (∀ k2, k2 ≠ k → (freeN k n r').poolInUse k2 = r.poolInUse k2) ∧
      (n = freeSlots r k → task_allocate_init r' k = Except.error DocaError.noMemory) ∧
      (0 < n → ∃ p, task_allocate_init (freeN k n r') k = Except.ok p) := by
  obtain ⟨r', hr', hp, hc, ho⟩ := allocN_ok k n r h
  obtain ⟨f1, f2, f3⟩ := freeN_poolInUse k n r'
  have hfp : (freeN k n r').poolInUse k = r.poolInUse k := by
    rw [f1, hp]
    omega
  refine ⟨r', hr', hp, hfp, ?_, fun k2 hk2 => by rw [f2 k2 hk2, ho k2 hk2], fun he => ?_,
    fun hn => ?_⟩
  · unfold freeSlots
    rw [hfp, f3, hc]
  · have : ¬ r'.poolInUse k < (r'.taskConf k).numTasks := by
      rw [hp, hc]
      unfold freeSlots at he
      omega
    simp [task_allocate_init, this]
  · have hlt2 : (freeN k n r').poolInUse k < ((freeN k n r').taskConf k).numTasks := by
      rw [hfp, f3, hc]
      unfold freeSlots at h
      omega
    refine ⟨({ freeN k n r' with
        poolInUse := Function.update (freeN k n r').poolInUse k
          ((freeN k n r').poolInUse k + 1) },
      (freeN k n r').poolInUse k), ?_⟩
    simp [task_allocate_init, hlt2]

/-- Witness for `alloc_free_restores_pool`: a receive pool of capacity 2,
exhausted by 2 allocations and restored by 2 frees. -/
theorem alloc_free_restores_pool_witness :
    (2 : Nat) ≤ freeSlots
        { doca_rdma_create with
          taskConf := fun _ => { successCb := 0, errorCb := 0, numTasks := 2 } }
        TaskKind.receive ∧
      ∃ r', allocN TaskKind.receive 2
          { doca_rdma_create with
            taskConf := fun _ => { successCb := 0, errorCb := 0, numTasks := 2 } } = some r' ∧
        r'.poolInUse TaskKind.receive =
          ({ doca_rdma_create with
            taskConf := fun _ => { successCb := 0, errorCb := 0, numTasks := 2 } }
            : DocaRdma).poolInUse TaskKind.receive + 2 ∧
        (freeN TaskKind.receive 2 r').poolInUse TaskKind.receive =
          ({ doca_rdma_create with
            taskConf := fun _ => { successCb := 0, errorCb := 0, numTasks := 2 } }
            : DocaRdma).poolInUse TaskKind.receive ∧
        freeSlots (freeN TaskKind.receive 2 r') TaskKind.receive =
          freeSlots
            { doca_rdma_create with
              taskConf := fun _ => { successCb := 0, errorCb := 0, numTasks := 2 } }
            TaskKind.receive ∧
        (∀ k2, k2 ≠ TaskKind.receive →
          (freeN TaskKind.receive 2 r').poolInUse k2 =
            ({ doca_rdma_create with
              taskConf := fun _ => { successCb := 0, errorCb := 0, numTasks := 2 } }
              : DocaRdma).poolInUse k2) ∧
        ((2 : Nat) = freeSlots
            { doca_rdma_create with
              taskConf := fun _ => { successCb := 0, errorCb := 0, numTasks := 2 } }
            TaskKind.receive →
          task_allocate_init r' TaskKind.receive = Except.error DocaError.noMemory) ∧
        ((0 : Nat) < 2 →
          ∃ p, task_allocate_init (freeN TaskKind.receive 2 r') TaskKind.receive =
            Except.ok p) :=
  ⟨by decide,
    alloc_free_restores_pool
      { doca_rdma_create with
        taskConf := fun _ => { successCb := 0, errorCb := 0, numTasks := 2 } }
      TaskKind.receive 2 (by decide)⟩

/-! ### Context stop, drain and destroy -/

theorem drainStep_fixed (r : DocaRdma) (h : r.state ≠ CtxState.stopping) : drainStep r = r := by
  simp [drainStep, h]

theorem drain_reaches_stopped (n : Nat) :
    ∀ r : DocaRdma, r.state = CtxState.stopping → r.inFlight ≤ n →
      (drainStep^[n + 1] r).state = CtxState.stopped := by
  induction n with
  | zero =>
    intro r h h0
    have h0' : r.inFlight = 0 := by omega
    rw [Function.iterate_one]
    simp [drainStep, h, h0']
  | succ m ih =>
    intro r h h0
    rw [Function.iterate_succ_apply]
    by_cases h0' : r.inFlight = 0
    · have hd : (drainStep r).state = CtxState.stopped := by simp [drainStep, h, h0']
      rw [Function.iterate_fixed (drainStep_fixed _ (by rw [hd]; simp)) (m + 1)]
      exact hd
    · have hs : (drainStep r).state = CtxState.stopping := by simp [drainStep, h, h0']
      have hif : (drainStep r).inFlight ≤ m := by
        simp only [drainStep, if_pos h, if_neg h0']
        omega
      exact ih (drainStep r) hs hif

/-- C5: destroying an RDMA instance whose context has not reached Stopped —
in particular one still Running with active connections — fails with
BadState (the instance is left intact, no updated state being produced);
once Stopped, destroy succeeds; and a complete stop-and-drain cycle from
Running does reach Stopped, after which destroy succeeds. -/
theorem destroy_requires_stopped (r : DocaRdma) :
    (r.state ≠ CtxState.stopped → doca_rdma_destroy r = Except.error DocaError.badState) ∧
    (r.state = CtxState.stopped → doca_rdma_destroy r = Except.ok ()) ∧
    (r.state = CtxState.running →
      (drain (doca_ctx_stop r)).state = CtxState.stopped ∧
      doca_rdma_destroy (drain (doca_ctx_stop r)) = Except.ok ()) := by
  refine ⟨fun h => by simp [doca_rdma_destroy, h], fun h => by simp [doca_rdma_destroy, h],
    fun h => ?_⟩
  have h1 : (doca_ctx_stop r).state = CtxState.stopping := by simp [doca_ctx_stop, h]
  have h2 : (drain (doca_ctx_stop r)).state = CtxState.stopped :=
    drain_reaches_stopped _ _ h1 (le_refl _)
  exact ⟨h2, by simp [doca_rdma_destroy, h2]⟩

/-- Witness for `destroy_requires_stopped`: a Running instance with two
in-flight tasks and one established connection. -/
theorem destroy_requires_stopped_witness :
    (({ doca_rdma_create with
        state := CtxState.running
        conns := [(0, ConnState.established)]
        nextConnId := 1
        inFlight := 2 } : DocaRdma).state ≠ CtxState.stopped ∧
      doca_rdma_destroy
        { doca_rdma_create with
          state := CtxState.running
          conns := [(0, ConnState.established)]
          nextConnId := 1
          inFlight := 2 } = Except.error DocaError.badState) ∧
    (({ doca_rdma_create with
        state := CtxState.running
        conns := [(0, ConnState.established)]
        nextConnId := 1
        inFlight := 2 } : DocaRdma).state = CtxState.running ∧
      (drain (doca_ctx_stop
        { doca_rdma_create with
          state := CtxState.running
          conns := [(0, ConnState.established)]
          nextConnId := 1
          inFlight := 2 })).state = CtxState.stopped ∧
      doca_rdma_destroy (drain (doca_ctx_stop
        { doca_rdma_create with
          state := CtxState.running
          conns := [(0, ConnState.established)]
          nextConnId := 1
          inFlight := 2 })) = Except.ok ()) :=
  ⟨⟨by decide,
      (destroy_requires_stopped
        { doca_rdma_create with
          state := CtxState.running
          conns := [(0, ConnState.established)]
          nextConnId := 1
          inFlight := 2 }).1 (by decide)⟩,
    ⟨rfl,
      (destroy_requires_stopped
        { doca_rdma_create with
          state := CtxState.running
          conns := [(0, ConnState.established)]
          nextConnId := 1
          inFlight := 2 }).2.2 rfl⟩⟩

/-! ### Connection teardown -/

theorem pe_progress_conn_fixed (e : ConnEndpoint) (h : e.connState ≠ ConnState.disconnecting) :
    pe_progress_conn e = e := by
  simp [pe_progress_conn, h]

theorem progress_disconnecting (e : ConnEndpoint) (h : e.connState = ConnState.disconnecting)
    (k : Nat) (hk : 1 ≤ k) :
    pe_progress_conn^[k] e =
      { connState := ConnState.disconnected, discCbCount := e.discCbCount + 1 } := by
  obtain ⟨m, rfl⟩ : ∃ m, k = m + 1 := ⟨k - 1, by omega⟩
  rw [Function.iterate_succ_apply]
  have h1 : pe_progress_conn e =
      { connState := ConnState.disconnected, discCbCount := e.discCbCount + 1 } := by
    simp [pe_progress_conn, h]
  rw [h1, Function.iterate_fixed (pe_progress_conn_fixed _ (by simp)) m]

/-- C6: a Disconnect call on an Established connection, issued by either
side (the caller/peer roles below are symmetric), succeeds, and from then on
every progress pass — one or more — has delivered exactly one Disconnection
callback on each side, leaving both sides in the terminal Disconnected
state; a task submission referencing a disconnected connection's id fails
with BadState; and the id allocator never reuses the identifier of any
connection in the table, disconnected ones included. -/
theorem disconnect_terminal_semantics (a b : ConnEndpoint) (r : DocaRdma) (connId : Nat) :
    (a.connState = ConnState.established → a.discCbCount = 0 → b.discCbCount = 0 →
      ∃ a' b', doca_rdma_connection_disconnect a b = Except.ok (a', b') ∧
        ∀ k, 1 ≤ k →
          (pe_progress_conn^[k] a').discCbCount = 1 ∧
          (pe_progress_conn^[k] a').connState = ConnState.disconnected ∧
          (pe_progress_conn^[k] b').discCbCount = 1 ∧
          (pe_progress_conn^[k] b').connState = ConnState.disconnected) ∧
    (lookupConn r connId = some ConnState.disconnected →
      doca_task_submit r connId = Except.error DocaError.badState) ∧
    (connsWf r →
      (∀ p ∈ r.conns, (newConnection r).2 ≠ p.1) ∧ connsWf (newConnection r).1) := by
  refine ⟨fun ha ha0 hb0 => ?_, fun h => ?_, fun hwf => ⟨fun p hp he => ?_, fun p' hp' => ?_⟩⟩
  · refine ⟨{ a with connState := ConnState.disconnecting },
      { b with connState := ConnState.disconnecting }, ?_, fun k hk => ?_⟩
    · simp [doca_rdma_connection_disconnect, ha]
    · rw [progress_disconnecting { a with connState := ConnState.disconnecting } rfl k hk,
        progress_disconnecting { b with connState := ConnState.disconnecting } rfl k hk]
      simp [ha0, hb0]
  · simp [doca_task_submit, h]
  · have hlt := hwf p hp
    have : (newConnection r).2 = r.nextConnId := rfl
    omega
  · have hmem : p' = (r.nextConnId, ConnState.requested) ∨ p' ∈ r.conns := by
      have : (newConnection r).1.conns = (r.nextConnId, ConnState.requested) :: r.conns := rfl
      rw [this] at hp'
      exact List.mem_cons.mp hp'
    have hnext : (newConnection r).1.nextConnId = r.nextConnId + 1 := rfl
    rw [hnext]
    rcases hmem with h | h
    · rw [h]
      omega
    · have := hwf p' h
      omega

/-- Witness for `disconnect_terminal_semantics`: two Established endpoints
with no callbacks delivered yet, and a table holding the disconnected
connection 3 with next id 4. -/
theorem disconnect_terminal_semantics_witness :
    (({ connState := ConnState.established, discCbCount := 0 } : ConnEndpoint).connState =
        ConnState.established ∧
      ∃ a' b',
        doca_rdma_connection_disconnect
          { connState := ConnState.established, discCbCount := 0 }
          { connState := ConnState.established, discCbCount := 0 } = Except.ok (a', b') ∧
        ∀ k, 1 ≤ k →
          (pe_progress_conn^[k] a').discCbCount = 1 ∧
          (pe_progress_conn^[k] a').connState = ConnState.disconnected ∧
          (pe_progress_conn^[k] b').discCbCount = 1 ∧
          (pe_progress_conn^[k] b').connState = ConnState.disconnected) ∧
    (lookupConn
        { doca_rdma_create with
          conns := [(3, ConnState.disconnected)]
          nextConnId := 4 } 3 = some ConnState.disconnected ∧
      doca_task_submit
        { doca_rdma_create with
          conns := [(3, ConnState.disconnected)]
          nextConnId := 4 } 3 = Except.error DocaError.badState) ∧
    (connsWf
        { doca_rdma_create with
          conns := [(3, ConnState.disconnected)]
          nextConnId := 4 } ∧
      (∀ p ∈ ({ doca_rdma_create with
          conns := [(3, ConnState.disconnected)]
          nextConnId := 4 } : DocaRdma).conns,
        (newConnection
          { doca_rdma_create with
            conns := [(3, ConnState.disconnected)]
            nextConnId := 4 }).2 ≠ p.1)) :=
  ⟨⟨rfl,
      (disconnect_terminal_semantics
        { connState := ConnState.established, discCbCount := 0 }
        { connState := ConnState.established, discCbCount := 0 }
        doca_rdma_create 0).1 rfl rfl rfl⟩,
    ⟨rfl,
      (disconnect_terminal_semantics
        { connState := ConnState.established, discCbCount := 0 }
        { connState := ConnState.established, discCbCount := 0 }
        { doca_rdma_create with
          conns := [(3, ConnState.disconnected)]
          nextConnId := 4 } 3).2.1 rfl⟩,
    ⟨fun p hp => by
        rcases List.mem_singleton.mp hp with rfl
        decide,
      ((disconnect_terminal_semantics
        { connState := ConnState.established, discCbCount := 0 }
        { connState := ConnState.established, discCbCount := 0 }
        { doca_rdma_create with
          conns := [(3, ConnState.disconnected)]
          nextConnId := 4 } 3).2.2
        (fun p hp => by
          rcases List.mem_singleton.mp hp with rfl
          decide)).1⟩⟩

/-! ### Queue submission disciplines -/

theorem writeWeakSeq_committed {α : Type} (q : GpuRdmaQueue α) (start : Nat) (ops : List α) :
    (writeWeakSeq q start ops).committed = q.committed := by
  induction ops generalizing q start with
  | nil => rfl
  | cons o rest ih => exact ih (doca_gpu_dev_rdma_write_weak q o start) (start + 1)

theorem writeWeakSeq_slots_lt {α : Type} (q : GpuRdmaQueue α) (start : Nat) (ops : List α)
    (i : Nat) (h : i < start) : (writeWeakSeq q start ops).slots i = q.slots i := by
  induction ops generalizing q start with
  | nil => rfl
  | cons o rest ih =>
    show (writeWeakSeq (doca_gpu_dev_rdma_write_weak q o start) (start + 1) rest).slots i =
      q.slots i
    rw [ih (doca_gpu_dev_rdma_write_weak q o start) (start + 1) (by omega)]
    exact Function.update_noteq (by omega) _ _

theorem writeWeakSeq_window {α : Type} (q : GpuRdmaQueue α) (start : Nat) (ops : List α) :
    (List.range ops.length).map (fun j => (writeWeakSeq q start ops).slots (start + j)) =
      ops.map some := by
  induction ops generalizing q start with
  | nil => rfl
  | cons o rest ih =>
    show (List.range (rest.length + 1)).map
        (fun j =>
          (writeWeakSeq (doca_gpu_dev_rdma_write_weak q o start) (start + 1) rest).slots
            (start + j)) =
      some o :: rest.map some
    rw [List.range_succ_eq_map, List.map_cons, List.map_map]
    refine List.cons_eq_cons.mpr ⟨?_, ?_⟩
    · show (writeWeakSeq (doca_gpu_dev_rdma_write_weak q o start) (start + 1) rest).slots
        start = some o
      rw [writeWeakSeq_slots_lt (doca_gpu_dev_rdma_write_weak q o start) (start + 1) rest start
        (Nat.lt_succ_self start)]
      exact Function.update_same _ _ _
    · have hcomp :
          ((fun j =>
            (writeWeakSeq (doca_gpu_dev_rdma_write_weak q o start) (start + 1) rest).slots
              (start + j)) ∘ Nat.succ) =
          fun j =>
            (writeWeakSeq (doca_gpu_dev_rdma_write_weak q o start) (start + 1) rest).slots
              (start + 1 + j) := by
        funext j
        show (writeWeakSeq (doca_gpu_dev_rdma_write_weak q o start) (start + 1) rest).slots
            (start + Nat.succ j) =
          (writeWeakSeq (doca_gpu_dev_rdma_write_weak q o start) (start + 1) rest).slots
            (start + 1 + j)
        congr 1
        omega
      rw [hcomp, ih (doca_gpu_dev_rdma_write_weak q o start) (start + 1)]

theorem writeStrongSeq_committed {α : Type} (q : GpuRdmaQueue α) (ops : List α) :
    (writeStrongSeq q ops).committed = q.committed := by
  induction ops generalizing q with
  | nil => rfl
  | cons o rest ih => exact ih (doca_gpu_dev_rdma_write_strong q o)

theorem writeStrongSeq_enqueued {α : Type} (q : GpuRdmaQueue α) (ops : List α) :
    (writeStrongSeq q ops).enqueued = q.enqueued + ops.length := by
  induction ops generalizing q with
  | nil => rfl
  | cons o rest ih =>
    show (writeStrongSeq (doca_gpu_dev_rdma_write_strong q o) rest).enqueued =
      q.enqueued + (rest.length + 1)
    rw [ih (doca_gpu_dev_rdma_write_strong q o)]
    show q.enqueued + 1 + rest.length = q.enqueued + (rest.length + 1)
    omega

theorem writeStrongSeq_slots_lt {α : Type} (q : GpuRdmaQueue α) (ops : List α) (i : Nat)
    (h : i < q.enqueued) : (writeStrongSeq q ops).slots i = q.slots i := by
  induction ops generalizing q with
  | nil => rfl
  | cons o rest ih =>
    show (writeStrongSeq (doca_gpu_dev_rdma_write_strong q o) rest).slots i = q.slots i
    rw [ih (doca_gpu_dev_rdma_write_strong q o) (by
      show i < q.enqueued + 1
      omega)]
    exact Function.update_noteq (by omega) _ _

theorem writeStrongSeq_window {α : Type} (q : GpuRdmaQueue α) (ops : List α) :
    (List.range ops.length).map (fun j => (writeStrongSeq q ops).slots (q.enqueued + j)) =
      ops.map some := by
  induction ops generalizing q with
  | nil => rfl
  | cons o rest ih =>
    show (List.range (rest.length + 1)).map
        (fun j =>
          (writeStrongSeq (doca_gpu_dev_rdma_write_strong q o) rest).slots (q.enqueued + j)) =
      some o :: rest.map some
    rw [List.range_succ_eq_map, List.map_cons, List.map_map]
    refine List.cons_eq_cons.mpr ⟨?_, ?_⟩
    · show (writeStrongSeq (doca_gpu_dev_rdma_write_strong q o) rest).slots q.enqueued =
        some o
      rw [writeStrongSeq_slots_lt (doca_gpu_dev_rdma_write_strong q o) rest q.enqueued
        (Nat.lt_succ_self q.enqueued)]
      exact Function.update_same _ _ _
    · have hcomp :
          ((fun j =>
            (writeStrongSeq (doca_gpu_dev_rdma_write_strong q o) rest).slots (q.enqueued + j)) ∘
              Nat.succ) =
          fun j =>
            (writeStrongSeq (doca_gpu_dev_rdma_write_strong q o) rest).slots
              ((doca_gpu_dev_rdma_write_strong q o).enqueued + j) := by
        funext j
        show (writeStrongSeq (doca_gpu_dev_rdma_write_strong q o) rest).slots
            (q.enqueued + Nat.succ j) =
          (writeStrongSeq (doca_gpu_dev_rdma_write_strong q o) rest).slots (q.enqueued + 1 + j)
        congr 1
        omega
      rw [hcomp, ih (doca_gpu_dev_rdma_write_strong q o)]

/-- C2: on one queue, operations enqueued through the weak discipline at
gapless sequential positions from the current position reported by
`get_info` are not visible to the transport before a commit; the weak commit
with `num_ops = N` then makes exactly those `N` operations visible, in
slot-index order (the order the positions were assigned); operations
enqueued through the strong discipline are likewise invisible before the
strong commit, and after it execute exactly in submission order.  (The model
places no constraint on non-sequential slot assignment: ordering is then
simply whatever the slots hold — undefined, not an error.) -/
theorem queue_submission_discipline {α : Type} (q : GpuRdmaQueue α) (ops : List α) :
    (execSeq (writeWeakSeq q (doca_gpu_dev_rdma_get_info q).1 ops) = execSeq q) ∧
    (execSeq (doca_gpu_dev_rdma_commit_weak
        (writeWeakSeq q (doca_gpu_dev_rdma_get_info q).1 ops) ops.length) =
      execSeq q ++ ops.map some) ∧
    (q.enqueued = q.committed → execSeq (writeStrongSeq q ops) = execSeq q) ∧
    (q.enqueued = q.committed →
      execSeq (doca_gpu_dev_rdma_commit_strong (writeStrongSeq q ops)) =
        execSeq q ++ ops.map some) := by
  have hwc : (writeWeakSeq q q.committed ops).committed = q.committed :=
    writeWeakSeq_committed q q.committed ops
  refine ⟨?_, ?_, fun he => ?_, fun he => ?_⟩
  · show execSeq (writeWeakSeq q q.committed ops) = execSeq q
    unfold execSeq
    rw [hwc]
    exact List.map_congr_left
      (fun i hi => writeWeakSeq_slots_lt q q.committed ops i (List.mem_range.mp hi))
  · show execSeq (doca_gpu_dev_rdma_commit_weak (writeWeakSeq q q.committed ops) ops.length) =
      execSeq q ++ ops.map some
    show (List.range ((writeWeakSeq q q.committed ops).committed + ops.length)).map
        (writeWeakSeq q q.committed ops).slots = execSeq q ++ ops.map some
    rw [hwc, List.range_add, List.map_append, List.map_map]
    refine congrArg₂ (· ++ ·) ?_ ?_
    · exact List.map_congr_left
        (fun i hi => writeWeakSeq_slots_lt q q.committed ops i (List.mem_range.mp hi))
    · have hw := writeWeakSeq_window q q.committed ops
      rw [← hw]
      rfl
  · unfold execSeq
    rw [writeStrongSeq_committed q ops]
    exact List.map_congr_left
      (fun i hi => writeStrongSeq_slots_lt q ops i (he ▸ List.mem_range.mp hi))
  · show (List.range (writeStrongSeq q ops).enqueued).map (writeStrongSeq q ops).slots =
      execSeq q ++ ops.map some
    rw [writeStrongSeq_enqueued q ops, he, List.range_add, List.map_append, List.map_map]
    refine congrArg₂ (· ++ ·) ?_ ?_
    · exact List.map_congr_left
        (fun i hi => writeStrongSeq_slots_lt q ops i (he ▸ List.mem_range.mp hi))
    · have hw := writeStrongSeq_window q ops
      rw [he] at hw
      rw [← hw]
      rfl

/-- Witness for `queue_submission_discipline` on a fresh queue of mask 7
with three operations. -/
theorem queue_submission_discipline_witness :
    (execSeq (writeWeakSeq
        ({ maskMaxPosition := 7, slots := fun _ => none, committed := 0, enqueued := 0 }
          : GpuRdmaQueue Nat)
        (doca_gpu_dev_rdma_get_info
          ({ maskMaxPosition := 7, slots := fun _ => none, committed := 0, enqueued := 0 }
            : GpuRdmaQueue Nat)).1 [10, 20, 30]) =
      execSeq ({ maskMaxPosition := 7, slots := fun _ => none, committed := 0, enqueued := 0 }
        : GpuRdmaQueue Nat)) ∧
    (execSeq (doca_gpu_dev_rdma_commit_weak
        (writeWeakSeq
          ({ maskMaxPosition := 7, slots := fun _ => none, committed := 0, enqueued := 0 }
            : GpuRdmaQueue Nat)
          (doca_gpu_dev_rdma_get_info
            ({ maskMaxPosition := 7, slots := fun _ => none, committed := 0, enqueued := 0 }
              : GpuRdmaQueue Nat)).1 [10, 20, 30]) ([10, 20, 30] : List Nat).length) =
      execSeq ({ maskMaxPosition := 7, slots := fun _ => none, committed := 0, enqueued := 0 }
        : GpuRdmaQueue Nat) ++ ([10, 20, 30] : List Nat).map some) ∧
    (({ maskMaxPosition := 7, slots := fun _ => none, committed := 0, enqueued := 0 }
        : GpuRdmaQueue Nat).enqueued =
      ({ maskMaxPosition := 7, slots := fun _ => none, committed := 0, enqueued := 0 }
        : GpuRdmaQueue Nat).committed ∧
      execSeq (doca_gpu_dev_rdma_commit_strong (writeStrongSeq
        ({ maskMaxPosition := 7, slots := fun _ => none, committed := 0, enqueued := 0 }
          : GpuRdmaQueue Nat) [10, 20, 30])) =
        execSeq ({ maskMaxPosition := 7, slots := fun _ => none, committed := 0, enqueued := 0 }
          : GpuRdmaQueue Nat) ++ ([10, 20, 30] : List Nat).map some) :=
  ⟨(queue_submission_discipline
      { maskMaxPosition := 7, slots := fun _ => none, committed := 0, enqueued := 0 }
      [10, 20, 30]).1,
    (queue_submission_discipline
      { maskMaxPosition := 7, slots := fun _ => none, committed := 0, enqueued := 0 }
      [10, 20, 30]).2.1,
    rfl,
    (queue_submission_discipline
      { maskMaxPosition := 7, slots := fun _ => none, committed := 0, enqueued := 0 }
      [10, 20, 30]).2.2.2 rfl⟩

end Doca



